import Mathlib

/-!
Verification of the DroneGPT agent (shallow embedding).

The definitions below are translated from the Python sources of the agent:

* `agent/shared/models.py`   — `CommandMode`, `Command`, `CommandResult`
* `agent/executor.py`        — `CommandExecutor.execute_sequence`, `_emergency_rtl`,
                               `abort_sequence`
* `agent/api.py`             — the `POST /commands` endpoint `execute_commands`
* `agent/commands/goto.py`   — `GotoCommand.validate_params`, `execute`,
                               `_calculate_distance` and the arrival loop
* `agent/commands/{takeoff,land,rtl,wait,yaw}.py` — handler `execute` bodies
* `agent/backends/mavsdk.py` — `_collect_position` origin latching, `get_px4_origin`,
                               `disconnect`

Python floats are modelled as `ℚ` where the code only compares and copies them,
and as `ℝ` where the code applies transcendental functions (`math.sin`,
`math.asin`, `math.sqrt`).  Fallible code returns `Except`/`Option`; exceptions
that propagate out of a function are explicit error values.
-/

/-- Scalar JSON parameter value.  Python `bool` is a subclass of `int`, so a
boolean passes `isinstance(x, (int, float))` and compares as 0/1. -/
inductive Value where
  | num (q : ℚ)
  | str (s : String)
  | boolV (b : Bool)
deriving DecidableEq

/-- Parameter dictionary (`Dict[str, Any]`), keys unique, first match wins. -/
abbrev Params := List (String × Value)

/-- Dictionary lookup: `params.get(k)` / `params[k]`. -/
def lookupParam (params : Params) (k : String) : Option Value :=
  (params.find? (fun kv => kv.1 == k)).map (fun kv => kv.2)

/-- Key membership test: `k in params`. -/
def hasKey (params : Params) (k : String) : Bool :=
  (lookupParam params k).isSome

/-- Numeric view of a value, after `isinstance(x, (int, float))`:
numbers are themselves, booleans count as 0/1, strings are not numbers. -/
def toNum : Value → Option ℚ
  | .num q => some q
  | .boolV b => some (if b then 1 else 0)
  | .str _ => none

/-- `CommandMode` from `shared/models.py` (lines 14-24).  The enum has exactly
these three members; `executor.py` also mentions `CommandMode.ABORT_ON_FAIL`,
which is *not* a member — evaluating that attribute raises `AttributeError`. -/
inductive CommandMode where
  | CRITICAL
  | CONTINUE
  | SKIP
deriving DecidableEq

/-- `Command` dataclass from `shared/models.py`. -/
structure Command where
  name : String
  params : Params
  mode : CommandMode := CommandMode.CONTINUE
deriving DecidableEq

/-- `CommandResult` dataclass from `shared/models.py`. -/
structure CommandResult where
  success : Bool
  message : String
  error : Option String := none
  duration : Option ℚ := none
deriving DecidableEq

/-! ## Executor (`agent/executor.py`) -/

/-- Exceptions that can escape `execute_sequence`. -/
inductive PyError where
  | runtimeError (msg : String)
  | attributeError (attr : String)
deriving DecidableEq

/-- Outcome of constructing and running one handler
(`command_class(cmd.name, cmd.params)` followed by `execute(backend)`):
either a `CommandResult` or a raised exception (caught at executor line 135). -/
inductive HandlerOutcome where
  | result (r : CommandResult)
  | exn (msg : String)
deriving DecidableEq

/-- Environment of one `execute_sequence` call: the registry contents
(`registry.get_command_class`, `registry.validate_params`), the behaviour of
each dispatched handler (indexed by position in the sequence) and the
behaviour of each emergency-RTL invocation. -/
structure ExecEnv where
  known : String → Bool
  validate : String → Params → List String
  run : ℕ → Command → HandlerOutcome
  rtl : ℕ → HandlerOutcome

/-- What one iteration of the `for` loop does to the sequence:
continue to the next command, break (after emergency RTL), or raise. -/
inductive StepOut where
  | cont (r : CommandResult)
  | halt (r : CommandResult)
  | raised (r : CommandResult) (e : PyError)
deriving DecidableEq

/-- Failure branch that carries the `elif cmd.mode == CommandMode.ABORT_ON_FAIL`
test (executor.py lines 84-93, 119-133, 142-150): `CRITICAL` triggers emergency
RTL and `break`; any other mode evaluates the missing enum member
`CommandMode.ABORT_ON_FAIL`, which raises `AttributeError`. -/
def failureModeStepFull (mode : CommandMode) (r : CommandResult) : StepOut :=
  match mode with
  | .CRITICAL => .halt r
  | _ => .raised r (.attributeError "ABORT_ON_FAIL")

/-- Failure branch of the parameter-validation failure (executor.py lines
105-111): this branch has no `ABORT_ON_FAIL` test — `CRITICAL` breaks,
everything else continues. -/
def failureModeStepValidation (mode : CommandMode) (r : CommandResult) : StepOut :=
  match mode with
  | .CRITICAL => .halt r
  | _ => .cont r

/-- Result synthesized for an unregistered command (executor.py lines 77-81). -/
def unknownCommandResult (name : String) : CommandResult :=
  { success := false, message := "Unknown command: " ++ name, error := some "unknown_command" }

/-- Result synthesized for schema-validation errors (executor.py lines 98-102). -/
def invalidParamsResult (errs : List String) : CommandResult :=
  { success := false
    message := "Invalid parameters: " ++ String.intercalate "; " errs
    error := some "invalid_parameters" }

/-- Result synthesized when handler construction or execution raises
(executor.py lines 137-139). -/
def exceptionResult (msg : String) : CommandResult :=
  { success := false, message := "Command execution error: " ++ msg, error := some msg }

/-- One iteration of the `for` loop of `execute_sequence`
(executor.py lines 71-150), for the `i`-th command. -/
def commandStep (env : ExecEnv) (i : ℕ) (cmd : Command) : StepOut :=
  if env.known cmd.name = false then
    failureModeStepFull cmd.mode (unknownCommandResult cmd.name)
  else if (env.validate cmd.name cmd.params).isEmpty = false then
    failureModeStepValidation cmd.mode (invalidParamsResult (env.validate cmd.name cmd.params))
  else
    match env.run i cmd with
    | .result r => if r.success then .cont r else failureModeStepFull cmd.mode r
    | .exn m => failureModeStepFull cmd.mode (exceptionResult m)

/-- `_emergency_rtl` (executor.py lines 160-167): construct an `RTLCommand`
and execute it inside `try/except`, so whatever it produces — result or
exception — is discarded. -/
def emergencyRtl (env : ExecEnv) (k : ℕ) : Unit :=
  match env.rtl k with
  | .result _ => ()
  | .exn _ => ()

/-- The `for` loop of `execute_sequence`.  Returns the number of emergency-RTL
invocations and either the collected result list or, when an iteration raises,
the escaped exception (the list built so far is lost to the caller, since
`execute_sequence` has only a `finally`, no `except`). -/
def execLoop (env : ExecEnv) : ℕ → List Command → ℕ × Except PyError (List CommandResult)
  | _, [] => (0, .ok [])
  | i, cmd :: rest =>
    match commandStep env i cmd with
    | .cont r =>
      let out := execLoop env (i + 1) rest
      (out.1, out.2.map (fun rs => r :: rs))
    | .halt r =>
      let _u := emergencyRtl env i
      (1, .ok [r])
    | .raised _ e => (0, .error e)

/-- Observable result of one `execute_sequence` call: the final value of
`self.executing`, how many times `_emergency_rtl` ran, and the returned list
or escaped exception. -/
structure ExecOutput where
  executing : Bool
  rtlCalls : ℕ
  outcome : Except PyError (List CommandResult)

/-- `execute_sequence` (executor.py lines 52-158).  The entry guard raises
`RuntimeError` while `self.executing` is true (before the flag is touched);
otherwise the flag is set, the loop runs inside `try/finally`, and the
`finally` clears the flag on every exit path. -/
def executeSequence (env : ExecEnv) (executing : Bool) (cmds : List Command) : ExecOutput :=
  if executing then
    { executing := true, rtlCalls := 0
      outcome := .error (.runtimeError "Executor is already running a command sequence") }
  else
    let out := execLoop env 0 cmds
    { executing := false, rtlCalls := out.1, outcome := out.2 }

/-! ### Abort and interleaving (`abort_sequence`, executor.py lines 193-208)

`abort_sequence` runs on the same event loop as the command sequence; it can
fire between two `await` points of the loop.  The loop body (lines 71-150)
never reads `self.executing` after the entry guard, so the only state shared
between the loop and `abort_sequence` is the flag and the RTL counter.  The
interleaved semantics below threads that shared state through the loop and
lets an adversarial schedule invoke `abort_sequence` between iterations. -/

/-- Shared executor state visible to `abort_sequence`. -/
structure SharedExecState where
  executing : Bool
  rtlCalls : ℕ
deriving DecidableEq

/-- `abort_sequence` (executor.py lines 193-208): returns `False` when no
sequence is executing; otherwise clears the flag, triggers emergency RTL and
returns `True`. -/
def abortSequence (s : SharedExecState) : Bool × SharedExecState :=
  if s.executing = false then (false, s)
  else (true, { executing := false, rtlCalls := s.rtlCalls + 1 })

/-- The `execute_sequence` loop with an abort schedule interleaved: after the
`i`-th iteration the scheduler may run `abort_sequence` (when `aborts i`).
The loop body is `commandStep`, which does not consult `s.executing`. -/
def execLoopWithAborts (env : ExecEnv) (aborts : ℕ → Bool) :
    ℕ → SharedExecState → List Command → SharedExecState × Except PyError (List CommandResult)
  | _, s, [] => (s, .ok [])
  | i, s, cmd :: rest =>
    match commandStep env i cmd with
    | .cont r =>
      let s1 := if aborts i then (abortSequence s).2 else s
      let out := execLoopWithAborts env aborts (i + 1) s1 rest
      (out.1, out.2.map (fun rs => r :: rs))
    | .halt r =>
      let _u := emergencyRtl env i
      ({ s with rtlCalls := s.rtlCalls + 1 }, .ok [r])
    | .raised _ e => (s, .error e)

/-! ## HTTP edge: `POST /commands` (`agent/api.py` lines 146-232) -/

/-- Exceptions seen by the outer `except Exception` of the endpoint.  FastAPI's
`HTTPException` subclasses `Exception`, so it is caught there too. -/
inductive PyExc where
  | http (status : ℕ) (detail : String)
  | valueError (msg : String)
  | runtimeError (msg : String)
  | attributeError (attr : String)
deriving DecidableEq

/-- Python `str(e)` for the exceptions above.  Starlette's `HTTPException`
stringifies as "{status_code}: {detail}". -/
def strOfExc : PyExc → String
  | .http s d => toString s ++ ": " ++ d
  | .valueError m => m
  | .runtimeError m => m
  | .attributeError a => a

/-- Raw command entry of the JSON body (`cmd_data`): `name` is read with
`cmd_data["name"]`, `params` defaults to `{}`, `mode` to "continue". -/
structure RawCommand where
  name : String
  params : Params := []
  mode : Option String := none
deriving DecidableEq

/-- Parsed `POST /commands` body. -/
structure CommandsRequest where
  commands : List RawCommand
  queue_mode : Option String := none
  target_drone : Option Int := none

/-- `CommandMode(value)`: enum construction raises `ValueError` on an unknown
value. -/
def commandModeOfString (s : String) : Except PyExc CommandMode :=
  if s = "critical" then .ok .CRITICAL
  else if s = "continue" then .ok .CONTINUE
  else if s = "skip" then .ok .SKIP
  else .error (.valueError (s ++ " is not a valid CommandMode"))

/-- `QueueMode(value)` (only the membership check matters here). -/
def queueModeValid (s : String) : Except PyExc Unit :=
  if s = "override" ∨ s = "append" then .ok ()
  else .error (.valueError (s ++ " is not a valid QueueMode"))

/-- The command-parsing loop of the endpoint (api.py lines 164-170). -/
def parseCommands : List RawCommand → Except PyExc (List Command)
  | [] => .ok []
  | rc :: rest => do
    let mode ← commandModeOfString (rc.mode.getD "continue")
    let cmds ← parseCommands rest
    .ok ({ name := rc.name, params := rc.params, mode := mode } :: cmds)

/-- Backend state as the endpoint sees it: the `connected` flag and what the
single `backend.connect()` reconnection attempt would produce on this path. -/
structure ApiBackendState where
  connected : Bool
  connectResult : Except String Bool

/-- Process-global agent state consulted by the endpoint: `backend` and
`executor` may still be `None` when startup failed. -/
structure AgentState where
  backend : Option ApiBackendState
  executorReady : Bool

/-- Python truthiness of the optional integer `target_drone`:
`None` and `0` are falsy. -/
def pyTruthyOptInt : Option Int → Bool
  | none => false
  | some n => n != 0

/-- Success body of `POST /commands` (api.py lines 213-228; the wall-clock
`timestamp` field is omitted from the model). -/
structure CommandsResponse where
  success : Bool
  results : List CommandResult
  drone_id : Int
  total_commands : ℕ
  successful_commands : ℕ

/-- HTTP-level outcome of the endpoint. -/
inductive HttpResponse where
  | ok (body : CommandsResponse)
  | error (status : ℕ) (detail : String)

/-- Body of the `try` block of the endpoint (api.py lines 159-228).  Raised
exceptions — including the endpoint's own `HTTPException(400/503)` — are
returned as `.error` values to be handled by the outer `except`. -/
def executeCommandsBody (agentId : Int) (st : AgentState) (env : ExecEnv)
    (executing : Bool) (req : CommandsRequest) : Except PyExc CommandsResponse := do
  let commands ← parseCommands req.commands
  let _ ← queueModeValid (req.queue_mode.getD "override")
  -- `if target_drone and target_drone != AGENT_ID:` — the mismatch check only
  -- fires for truthy values (`None` and `0` skip it).
  match req.target_drone with
  | some td =>
    if td != 0 && td != agentId then
      throw (.http 400 ("Wrong drone. This is drone " ++ toString agentId
        ++ ", got target " ++ toString td))
  | none => pure ()
  -- `if not target_drone: target_drone = AGENT_ID` — only used in a log line.
  let _target : Int :=
    match req.target_drone with
    | some td => if td = 0 then agentId else td
    | none => agentId
  if st.executorReady = false then
    throw (.http 503 "Command executor not initialized")
  -- `if not backend or not backend.connected:` with one reconnect attempt.
  match st.backend with
  | none => throw (.http 503 "Backend not initialized")
  | some b =>
    if b.connected = false then
      -- inner try/except: the `HTTPException(503)` raised on a failed
      -- reconnect is itself caught by `except Exception as e` and re-raised
      -- wrapped in a second 503.
      match b.connectResult with
      | .ok true => pure ()
      | .ok false =>
        throw (.http 503 ("Backend connection failed: "
          ++ strOfExc (.http 503 "Backend not connected and reconnection failed")))
      | .error m => throw (.http 503 ("Backend connection failed: " ++ m))
    else pure ()
  let out := executeSequence env executing commands
  match out.outcome with
  | .error (.runtimeError m) => throw (.runtimeError m)
  | .error (.attributeError a) => throw (.attributeError a)
  | .ok results =>
    pure { success := results.all (fun r => r.success)
           results := results
           drone_id := agentId
           total_commands := results.length
           successful_commands := (results.filter (fun r => r.success)).length }

/-- `execute_commands` (api.py lines 146-232): the outer
`except Exception as e: raise HTTPException(status_code=500, detail=str(e))`
turns every exception raised inside the `try` — `HTTPException(400)` and
`HTTPException(503)` included — into a 500 response. -/
def executeCommands (agentId : Int) (st : AgentState) (env : ExecEnv)
    (executing : Bool) (req : CommandsRequest) : HttpResponse :=
  match executeCommandsBody agentId st env executing req with
  | .ok body => .ok body
  | .error e => .error 500 (strOfExc e)

/-! ## Goto parameter validation (`agent/commands/goto.py` lines 51-115)

`BaseCommand.__init__` (base.py lines 19-28) calls `validate_params()`, so a
`goto` command constructs successfully exactly when `validate_params` raises
no `ValueError`. -/

/-- `has_gps`: all of `latitude`, `longitude`, `altitude` present (goto.py
line 56). -/
def hasGpsTriple (params : Params) : Bool :=
  hasKey params "latitude" && hasKey params "longitude" && hasKey params "altitude"

/-- `has_ned`: all of `north`, `east`, `down` present (goto.py line 57). -/
def hasNedTriple (params : Params) : Bool :=
  hasKey params "north" && hasKey params "east" && hasKey params "down"

/-- `_validate_gps_params` (goto.py lines 84-97).  Only called when the three
keys are present; a missing key is a `KeyError` (modelled as an error too). -/
def validateGpsParams (params : Params) : Except String Unit := do
  match (lookupParam params "latitude").bind toNum with
  | none => throw "latitude must be a number between -90 and 90 degrees"
  | some lat =>
    if lat < -90 ∨ 90 < lat then
      throw "latitude must be a number between -90 and 90 degrees"
  match (lookupParam params "longitude").bind toNum with
  | none => throw "longitude must be a number between -180 and 180 degrees"
  | some lon =>
    if lon < -180 ∨ 180 < lon then
      throw "longitude must be a number between -180 and 180 degrees"
  match (lookupParam params "altitude").bind toNum with
  | none => throw "altitude must be between -500 and 10000 meters MSL"
  | some alt =>
    if alt < -500 ∨ 10000 < alt then
      throw "altitude must be between -500 and 10000 meters MSL"

/-- `_validate_ned_params` (goto.py lines 99-115).  `pmAvailable` models
whether the `pymap3d` import succeeded (goto.py lines 24-28). -/
def validateNedParams (pmAvailable : Bool) (params : Params) : Except String Unit := do
  if pmAvailable = false then
    throw "NED coordinates require pymap3d library (uv pip install pymap3d)"
  match (lookupParam params "north").bind toNum with
  | none => throw "north must be a number with absolute value at most 10000 meters"
  | some north =>
    if 10000 < |north| then
      throw "north must be a number with absolute value at most 10000 meters"
  match (lookupParam params "east").bind toNum with
  | none => throw "east must be a number with absolute value at most 10000 meters"
  | some east =>
    if 10000 < |east| then
      throw "east must be a number with absolute value at most 10000 meters"
  match (lookupParam params "down").bind toNum with
  | none => throw "down must be between -1000 and 100 meters (negative = up)"
  | some down =>
    if down < -1000 ∨ 100 < down then
      throw "down must be between -1000 and 100 meters (negative = up)"

/-- Optional `speed` check (goto.py lines 74-77). -/
def validateGotoSpeed (params : Params) : Except String Unit :=
  match lookupParam params "speed" with
  | none => .ok ()
  | some v =>
    match toNum v with
    | none => .error "speed must be a positive number at most 20 m/s"
    | some speed =>
      if speed ≤ 0 ∨ 20 < speed then .error "speed must be a positive number at most 20 m/s"
      else .ok ()

/-- Optional `acceptance_radius` check (goto.py lines 79-82). -/
def validateGotoAcceptanceRadius (params : Params) : Except String Unit :=
  match lookupParam params "acceptance_radius" with
  | none => .ok ()
  | some v =>
    match toNum v with
    | none => .error "acceptance_radius must be positive and at most 50 meters"
    | some radius =>
      if radius ≤ 0 ∨ 50 < radius then
        .error "acceptance_radius must be positive and at most 50 meters"
      else .ok ()

/-- `GotoCommand.validate_params` (goto.py lines 51-82): the mutual-exclusion
check compares the two *complete* triples; a partial triple (e.g. `north`
alone next to a full GPS triple) does not trigger it. -/
def gotoValidateParams (pmAvailable : Bool) (params : Params) : Except String Unit := do
  let has_gps := hasGpsTriple params
  let has_ned := hasNedTriple params
  if has_gps = false ∧ has_ned = false then
    throw ("goto requires either GPS coordinates (latitude, longitude, altitude) "
      ++ "or NED coordinates (north, east, down)")
  if has_gps ∧ has_ned then
    throw "goto cannot accept both GPS and NED coordinates simultaneously"
  if has_gps then
    validateGpsParams params
  else if has_ned then
    validateNedParams pmAvailable params
  validateGotoSpeed params
  validateGotoAcceptanceRadius params

/-! ## PX4 origin tracking (`agent/backends/mavsdk.py`) -/

/-- One update from the `telemetry.position()` stream. -/
structure PositionUpdate where
  latitude_deg : ℚ
  longitude_deg : ℚ
  absolute_altitude_m : ℚ
  relative_altitude_m : ℚ
deriving DecidableEq

/-- Latched PX4 origin (`_px4_origin` dict: latitude, longitude, altitude). -/
structure Px4Origin where
  latitude : ℚ
  longitude : ℚ
  altitude : ℚ
deriving DecidableEq

/-- Origin-relevant backend state (`MAVSDKBackend.__init__` lines 85-94):
`connected`, `_px4_origin`, `_origin_set` and the position slot of
`_telemetry_state`. -/
structure BackendState where
  connected : Bool
  px4_origin : Option Px4Origin
  origin_set : Bool
  lastPosition : Option PositionUpdate
deriving DecidableEq

/-- One iteration of `_collect_position` (mavsdk.py lines 309-337): latch the
origin when it is unset and both coordinates are non-zero, then store the
position snapshot. -/
def collectPositionUpdate (s : BackendState) (p : PositionUpdate) : BackendState :=
  let s1 :=
    if s.origin_set = false ∧ p.latitude_deg ≠ 0 ∧ p.longitude_deg ≠ 0 then
      { s with
        px4_origin := some ⟨p.latitude_deg, p.longitude_deg, p.absolute_altitude_m⟩
        origin_set := true }
    else s
  { s1 with lastPosition := some p }

/-- The `_collect_position` task consuming a finite prefix of the stream. -/
def collectPosition (s : BackendState) (updates : List PositionUpdate) : BackendState :=
  updates.foldl collectPositionUpdate s

/-- `get_px4_origin` (mavsdk.py lines 441-447): the real origin without
default fallback (`.copy()` returns an equal dict). -/
def get_px4_origin (s : BackendState) : Option Px4Origin :=
  s.px4_origin

/-- `disconnect` (mavsdk.py lines 449-475): reset `connected`, the telemetry
snapshot, `_px4_origin` and `_origin_set`. -/
def disconnect (_s : BackendState) : BackendState :=
  { connected := false, px4_origin := none, origin_set := false, lastPosition := none }

/-- Origin latched by a stream prefix starting from a fresh backend: the first
update with both coordinates non-zero, taking `(lat, lon, abs_alt)`. -/
def firstValidOrigin (updates : List PositionUpdate) : Option Px4Origin :=
  (updates.find? (fun p => decide (p.latitude_deg ≠ 0 ∧ p.longitude_deg ≠ 0))).map
    (fun p => ⟨p.latitude_deg, p.longitude_deg, p.absolute_altitude_m⟩)

/-! ## Goto distance and arrival monitoring (`agent/commands/goto.py`)

The distance computation uses `math.sin` / `math.cos` / `math.asin` /
`math.sqrt`, modelled over `ℝ` with the corresponding real functions.
Comparisons on `ℝ` are classical, so these definitions are noncomputable. -/

open scoped Classical

/-- Live telemetry position (float fields), as read in the handlers. -/
structure Position where
  latitude_deg : ℝ
  longitude_deg : ℝ
  absolute_altitude_m : ℝ
  relative_altitude_m : ℝ

/-- `math.radians`: degrees to radians. -/
noncomputable def radians (x : ℝ) : ℝ := x * Real.pi / 180

/-- `GotoCommand._calculate_distance` (goto.py lines 290-321): Haversine
horizontal distance with Earth radius 6371000 m combined with the absolute
altitude difference into a 3-D distance. -/
noncomputable def calculate_distance (lat1 lon1 alt1 lat2 lon2 alt2 : ℝ) : ℝ :=
  let lat1_rad := radians lat1
  let lon1_rad := radians lon1
  let lat2_rad := radians lat2
  let lon2_rad := radians lon2
  let dlat := lat2_rad - lat1_rad
  let dlon := lon2_rad - lon1_rad
  let a := Real.sin (dlat / 2) ^ 2
    + Real.cos lat1_rad * Real.cos lat2_rad * Real.sin (dlon / 2) ^ 2
  let c := 2 * Real.arcsin (Real.sqrt a)
  let earth_radius : ℝ := 6371000
  let horizontal_distance := earth_radius * c
  let vertical_distance := |alt2 - alt1|
  Real.sqrt (horizontal_distance ^ 2 + vertical_distance ^ 2)

/-- Outcome of the arrival-monitoring loop: success carries the distance that
was found within the acceptance radius (reported in the success message);
timeout is the `error="timeout"` failure. -/
inductive GotoLoopResult where
  | arrived (distance : ℝ)
  | timedOut

/-- Distance from the `k`-th polled position to the target. -/
noncomputable def gotoDistanceAt (stream : ℕ → Position) (tlat tlon talt : ℝ) (k : ℕ) : ℝ :=
  calculate_distance (stream k).latitude_deg (stream k).longitude_deg
    (stream k).absolute_altitude_m tlat tlon talt

/-- The arrival-monitoring `while` loop (goto.py lines 238-282):
`timeout = 60.0`, `check_interval = 0.5`, `elapsed` starts at 0 and grows by
0.5 per iteration, so the guard `elapsed < timeout` admits polls
`k = 0, …, 119` (elapsed `= k/2`).  Each iteration reads one position from
the live stream, computes the 3-D distance and succeeds when it is within
`acceptance_radius`.  The `fuel` argument only bounds the recursion; with
fuel 121 the guard, not the fuel, ends the loop. -/
noncomputable def gotoMonitorLoop (stream : ℕ → Position) (tlat tlon talt radius : ℝ) :
    ℕ → ℕ → GotoLoopResult
  | 0, _ => .timedOut
  | fuel + 1, k =>
    if (k : ℚ) * (1 / 2) < 60 then
      if gotoDistanceAt stream tlat tlon talt k ≤ radius then
        .arrived (gotoDistanceAt stream tlat tlon talt k)
      else gotoMonitorLoop stream tlat tlon talt radius fuel (k + 1)
    else .timedOut

/-- The full arrival monitor, entered right after `action.goto_location` is
dispatched. -/
noncomputable def gotoMonitorArrival (stream : ℕ → Position) (tlat tlon talt radius : ℝ) :
    GotoLoopResult :=
  gotoMonitorLoop stream tlat tlon talt radius 121 0

/-! ## Command handlers (`agent/commands/*.py`)

Each handler's `execute(backend)` is modelled as a pure function from the
backend and oracles for non-deterministic inputs (stream contents, autopilot
action outcomes, measured elapsed time) to the returned `CommandResult`
together with the trace of autopilot actions dispatched to the backend.
`asyncio.sleep` is not a backend side effect and is not traced.  Float string
formatting inside messages (e.g. "{:.2f}") is elided from the message texts. -/

/-- Roll/pitch/yaw sample from `telemetry.attitude_euler()`. -/
structure Attitude where
  roll_deg : ℝ
  pitch_deg : ℝ
  yaw_deg : ℝ

/-- Outcomes of the autopilot action calls a handler may perform: `none` means
the call returned normally, `some msg` that it raised with `str(e) = msg`. -/
structure ActionOracles where
  armOutcome : Option String := none
  setTakeoffAltitudeOutcome : Option String := none
  takeoffOutcome : Option String := none
  landOutcome : Option String := none
  returnToLaunchOutcome : Option String := none
  gotoLocationOutcome : Option String := none
  setCurrentHeadingOutcome : Option String := none

/-- Backend as seen by a handler: the `connected` flag, the telemetry streams
(indexed by read order), the PX4 global-origin query and the action oracles.
`gpsGlobalOrigin` models `drone.telemetry.get_gps_global_origin()`
(goto.py lines 143-149): `.error` is a raised exception. -/
structure HandlerBackend where
  connected : Bool
  armedStream : ℕ → Bool
  positionStream : ℕ → Position
  attitudeStream : ℕ → Attitude
  gpsGlobalOrigin : Except String (ℝ × ℝ × ℝ)
  actions : ActionOracles

/-- Autopilot actions a handler can dispatch through the backend.  The yaw
argument of `goto_location` is the constant `float("nan")` (preserve heading)
and is omitted, `ℝ` having no NaN. -/
inductive DroneAction where
  | arm
  | set_takeoff_altitude (altitude : ℝ)
  | takeoff
  | land
  | return_to_launch
  | goto_location (lat lon alt_msl : ℝ)
  | set_current_heading (heading : ℝ)

/-- The early return shared by the connected checks (identical result literal
in takeoff.py 54-59, land.py 48-53, rtl.py 25-30, goto.py 187-192,
yaw.py 38-43). -/
def disconnectedResult : CommandResult :=
  { success := false, message := "Backend not connected to drone"
    error := some "backend_disconnected" }

/-- Failure result materialized by a handler's outer `except Exception`:
`success=False`, `error=str(e)`, with the measured duration. -/
def handlerExceptionResult (prefixMsg msg : String) (elapsed : ℚ) : CommandResult :=
  { success := false, message := prefixMsg ++ msg, error := some msg
    duration := some elapsed }

/-- `WaitCommand.execute` (wait.py lines 52-89): no `backend.connected` check
and no backend interaction at all — the function suspends for `duration` and
always reports success (the timing-drift check only selects the message).
A missing or non-numeric `duration` raises inside the `try` and is returned
as a failure (`KeyError` / `TypeError` from `asyncio.sleep`). -/
def waitExecute (_b : HandlerBackend) (params : Params) (elapsed : ℚ) :
    CommandResult × List DroneAction :=
  match lookupParam params "duration" with
  | none => (handlerExceptionResult "wait failed: " "duration" elapsed, [])
  | some v =>
    match toNum v with
    | none =>
      (handlerExceptionResult "wait failed: "
        "an integer is required (got type str)" elapsed, [])
    | some duration =>
      let timing_accuracy := |elapsed - duration|
      let timing_threshold := max (1 / 100) (duration * (1 / 100))
      let message :=
        if timing_accuracy ≤ timing_threshold then "wait completed successfully"
        else "wait completed with timing drift"
      ({ success := true, message := message, duration := some elapsed }, [])

/-- `TakeoffCommand.execute` (takeoff.py lines 49-107): connected check, then
`float(params.get("altitude", 10.0))`, the ground check on the first position
sample (`_check_ground_state`), the no-op path when already airborne, and the
arm / set-altitude / takeoff action sequence with the fixed 8 s sleep. -/
noncomputable def takeoffExecute (b : HandlerBackend) (params : Params) (elapsed : ℚ) :
    CommandResult × List DroneAction :=
  if b.connected = false then (disconnectedResult, [])
  else
    match toNum ((lookupParam params "altitude").getD (.num 10)) with
    | none =>
      (handlerExceptionResult "Takeoff failed: " "float() argument error" elapsed, [])
    | some altQ =>
      let altitude : ℝ := (altQ : ℝ)
      let is_on_ground := (b.positionStream 0).relative_altitude_m < (1 / 2 : ℝ)
      if is_on_ground = false then
        ({ success := true, message := "Drone already airborne - takeoff not needed"
           duration := some elapsed }, [])
      else
        match b.actions.armOutcome with
        | some e => (handlerExceptionResult "Takeoff failed: " e elapsed, [.arm])
        | none =>
          match b.actions.setTakeoffAltitudeOutcome with
          | some e =>
            (handlerExceptionResult "Takeoff failed: " e elapsed,
              [.arm, .set_takeoff_altitude altitude])
          | none =>
            match b.actions.takeoffOutcome with
            | some e =>
              (handlerExceptionResult "Takeoff failed: " e elapsed,
                [.arm, .set_takeoff_altitude altitude, .takeoff])
            | none =>
              ({ success := true, message := "Takeoff completed successfully"
                 duration := some elapsed },
                [.arm, .set_takeoff_altitude altitude, .takeoff])

/-- `LandCommand.execute` (land.py lines 43-89): connected check, airborne
check on the first position sample (`_check_airborne_state`), the no-op path
when already on ground, then `action.land()` with the fixed 10 s sleep. -/
noncomputable def landExecute (b : HandlerBackend) (_params : Params) (elapsed : ℚ) :
    CommandResult × List DroneAction :=
  if b.connected = false then (disconnectedResult, [])
  else
    let is_airborne := (1 / 2 : ℝ) < (b.positionStream 0).relative_altitude_m
    if is_airborne = false then
      ({ success := true, message := "Drone already on ground - landing not needed"
         duration := some elapsed }, [])
    else
      match b.actions.landOutcome with
      | some e => (handlerExceptionResult "Landing failed: " e elapsed, [.land])
      | none =>
        ({ success := true, message := "Landing completed successfully"
           duration := some elapsed }, [.land])

/-- `RTLCommand.execute` (rtl.py lines 20-60): connected check, then
`action.return_to_launch()` with the fixed 15 s sleep. -/
def rtlExecute (b : HandlerBackend) (_params : Params) (elapsed : ℚ) :
    CommandResult × List DroneAction :=
  if b.connected = false then (disconnectedResult, [])
  else
    match b.actions.returnToLaunchOutcome with
    | some e => (handlerExceptionResult "RTL failed: " e elapsed, [.return_to_launch])
    | none =>
      ({ success := true, message := "Return to launch completed successfully"
         duration := some elapsed }, [.return_to_launch])

/-- Python float `%` with a positive divisor: `x % y = x - y*floor(x/y)`. -/
noncomputable def pymod (x y : ℝ) : ℝ := x - y * (⌊x / y⌋ : ℝ)

/-- `YawCommand.validate_params` (yaw.py lines 13-20): `heading` required,
numeric, in `[0, 360)`; optional `speed` defaults to 30, must be in
`(0, 180]`. -/
def yawValidateParams (params : Params) : Except String Unit := do
  match (lookupParam params "heading").bind toNum with
  | none => throw "heading must be a number between 0 and 360 degrees"
  | some heading =>
    if heading < 0 ∨ 360 ≤ heading then
      throw "heading must be a number between 0 and 360 degrees"
  match toNum ((lookupParam params "speed").getD (.num 30)) with
  | none => throw "speed must be a positive number at most 180 deg/s"
  | some speed =>
    if speed ≤ 0 ∨ 180 < speed then
      throw "speed must be a positive number at most 180 deg/s"

/-- Outcome of the yaw heading monitor. -/
inductive YawLoopResult where
  | reached (current_heading : ℝ)
  | timedOut

/-- The yaw monitoring `while` loop (yaw.py lines 57-72): `timeout = 30.0`,
`check_interval = 0.5`, tolerance 2°; per poll the wrapped signed difference
`abs((current - heading + 180) % 360 - 180)` is compared against the
tolerance.  Guard `elapsed < timeout` admits polls `k = 0, …, 59`. -/
noncomputable def yawMonitorLoop (stream : ℕ → Attitude) (heading : ℝ) :
    ℕ → ℕ → YawLoopResult
  | 0, _ => .timedOut
  | fuel + 1, k =>
    if (k : ℚ) * (1 / 2) < 30 then
      let current_heading := pymod (stream k).yaw_deg 360
      let diff := |pymod (current_heading - heading + 180) 360 - 180|
      if diff ≤ 2 then .reached current_heading
      else yawMonitorLoop stream heading fuel (k + 1)
    else .timedOut

/-- `YawCommand.execute` (yaw.py lines 34-84): connected check, re-validation,
`_check_flight_state` (armed, then airborne, each raising `RuntimeError`
caught by the outer `except`), `action.set_current_heading(heading)`, then
the heading monitor with its 30 s deadline. -/
noncomputable def yawExecute (b : HandlerBackend) (params : Params) (elapsed : ℚ) :
    CommandResult × List DroneAction :=
  if b.connected = false then (disconnectedResult, [])
  else
    match yawValidateParams params with
    | .error m => (handlerExceptionResult "yaw failed: " m elapsed, [])
    | .ok _ =>
      if b.armedStream 0 = false then
        (handlerExceptionResult "yaw failed: "
          "yaw command requires drone to be armed. Use takeoff first." elapsed, [])
      else if (b.positionStream 0).relative_altitude_m < (1 / 2 : ℝ) then
        (handlerExceptionResult "yaw failed: "
          "yaw command requires drone to be airborne. Use takeoff first." elapsed, [])
      else
        match (lookupParam params "heading").bind toNum with
        | none => (handlerExceptionResult "yaw failed: " "heading" elapsed, [])
        | some headingQ =>
          let heading : ℝ := (headingQ : ℝ)
          match b.actions.setCurrentHeadingOutcome with
          | some e =>
            (handlerExceptionResult "yaw failed: " e elapsed, [.set_current_heading heading])
          | none =>
            match yawMonitorLoop b.attitudeStream heading 61 0 with
            | .reached _ =>
              ({ success := true, message := "Yaw completed", duration := some elapsed },
                [.set_current_heading heading])
            | .timedOut =>
              ({ success := false, message := "Yaw timed out after 30s"
                 error := some "timeout", duration := some elapsed },
                [.set_current_heading heading])

/-- Target-coordinate computation of `GotoCommand.execute` (goto.py lines
199-223).  The branch is chosen by `"latitude" in self.params` alone; the GPS
branch then reads `longitude` and `altitude` directly (a missing key is a
`KeyError`, a non-numeric value fails at the autopilot call).  The NED branch
goes through `_convert_ned_to_gps` (lines 151-180): `pymap3d` must be
available, the origin comes from `get_gps_global_origin()` with the SITL
default `(47.3977508, 8.5456074, 488.0)` on error (lines 143-149), and
`ned2geodetic` is the pymap3d conversion, taken as an oracle. -/
noncomputable def gotoTargetCoords
    (ned2geodetic : ℝ → ℝ → ℝ → ℝ → ℝ → ℝ → ℝ × ℝ × ℝ)
    (pmAvailable : Bool) (b : HandlerBackend) (params : Params) :
    Except String (ℝ × ℝ × ℝ) :=
  if hasKey params "latitude" then
    match (lookupParam params "latitude").bind toNum,
        (lookupParam params "longitude").bind toNum,
        (lookupParam params "altitude").bind toNum with
    | some lat, some lon, some alt => .ok ((lat : ℝ), (lon : ℝ), (alt : ℝ))
    | _, _, _ => .error "longitude"
  else
    if pmAvailable = false then .error "pymap3d library required for NED conversion"
    else
      match (lookupParam params "north").bind toNum,
          (lookupParam params "east").bind toNum,
          (lookupParam params "down").bind toNum with
      | some north, some east, some down =>
        let origin :=
          match b.gpsGlobalOrigin with
          | .ok o => o
          | .error _ => ((47.3977508 : ℝ), (8.5456074 : ℝ), (488.0 : ℝ))
        .ok (ned2geodetic (north : ℝ) (east : ℝ) (down : ℝ) origin.1 origin.2.1 origin.2.2)
      | _, _, _ => .error "north"

/-- `GotoCommand.execute` (goto.py lines 182-288): connected check, the
armed/airborne `_check_flight_state` (lines 117-135, `RuntimeError` caught by
the outer `except`), target computation, `acceptance_radius` defaulting to
2.0, the `action.goto_location` dispatch, and the arrival monitor
`gotoMonitorArrival` with its 60 s deadline. -/
noncomputable def gotoExecute
    (ned2geodetic : ℝ → ℝ → ℝ → ℝ → ℝ → ℝ → ℝ × ℝ × ℝ)
    (pmAvailable : Bool) (b : HandlerBackend) (params : Params) (elapsed : ℚ) :
    CommandResult × List DroneAction :=
  if b.connected = false then (disconnectedResult, [])
  else if b.armedStream 0 = false then
    (handlerExceptionResult "goto failed: "
      "goto command requires drone to be armed. Use takeoff first." elapsed, [])
  else if (b.positionStream 0).relative_altitude_m < (1 / 2 : ℝ) then
    (handlerExceptionResult "goto failed: "
      "goto command requires drone to be airborne. Use takeoff first." elapsed, [])
  else
    match gotoTargetCoords ned2geodetic pmAvailable b params with
    | .error m => (handlerExceptionResult "goto failed: " m elapsed, [])
    | .ok (tlat, tlon, talt) =>
      match toNum ((lookupParam params "acceptance_radius").getD (.num 2)) with
      | none => (handlerExceptionResult "goto failed: " "acceptance_radius" elapsed, [])
      | some radiusQ =>
        let acceptance_radius : ℝ := (radiusQ : ℝ)
        match b.actions.gotoLocationOutcome with
        | some e =>
          (handlerExceptionResult "goto failed: " e elapsed, [.goto_location tlat tlon talt])
        | none =>
          match gotoMonitorArrival b.positionStream tlat tlon talt acceptance_radius with
          | .arrived _ =>
            ({ success := true, message := "goto completed successfully"
               duration := some elapsed }, [.goto_location tlat tlon talt])
          | .timedOut =>
            ({ success := false, message := "goto timed out after 60s"
               error := some "timeout", duration := some elapsed },
              [.goto_location tlat tlon talt])

/-! ## Concrete instances used in the theorems below -/

/-- Registry contents after `discover_and_register` scans `agent/commands/`
(command_registry.py lines 59-72): the stems of the six handler files. -/
def sampleRegistryKnown (name : String) : Bool :=
  name == "goto" || name == "land" || name == "rtl" || name == "takeoff"
    || name == "wait" || name == "yaw"

/-- Result of a successful `wait` handler run (0.2 s, no drift). -/
def waitSuccessResult : CommandResult :=
  { success := true, message := "wait completed successfully", duration := some (1 / 5) }

/-- Executor environment of a deployment with the six discovered handlers, no
schema validators (registry `validate_params` returns `[]` without one,
command_registry.py lines 208-209), handlers that succeed, and a working
emergency RTL. -/
def sampleEnv : ExecEnv where
  known := sampleRegistryKnown
  validate := fun _ _ => []
  run := fun _ _ => .result waitSuccessResult
  rtl := fun _ =>
    .result { success := true, message := "Return to launch completed successfully" }

/-- `wait{duration: 0.2}` with the default `CONTINUE` mode. -/
def waitCmd : Command :=
  { name := "wait", params := [("duration", .num (1 / 5))], mode := .CONTINUE }

/-- Unknown command `frobnicate{}` with mode `CONTINUE`. -/
def frobCmd : Command := { name := "frobnicate", params := [], mode := .CONTINUE }

/-- The scenario sequence `[wait, frobnicate (CONTINUE), wait]`. -/
def unknownContinueSeq : List Command := [waitCmd, frobCmd, waitCmd]

/-- A sequence whose first command fails critically (unknown command with mode
`CRITICAL`) followed by a command that would succeed. -/
def critSeq : List Command :=
  [{ name := "frobnicate", params := [], mode := .CRITICAL }, waitCmd]

/-- Agent state with an initialized executor and a connected backend. -/
def apiReadyState : AgentState :=
  { backend := some { connected := true, connectResult := .ok true }, executorReady := true }

/-- Agent state whose backend was never initialized. -/
def apiNoBackendState : AgentState := { backend := none, executorReady := true }

/-- Agent state with a disconnected backend whose reconnection attempt
returns `False`. -/
def apiReconnectFailsState : AgentState :=
  { backend := some { connected := false, connectResult := .ok false }, executorReady := true }

/-- Raw `wait` command as posted over HTTP. -/
def rawWaitCommand : RawCommand := { name := "wait", params := [("duration", .num (1 / 5))] }

/-- The mutual-exclusion scenario parameters
`goto{latitude: 47.4, longitude: 8.5, altitude: 500, north: 0}`. -/
def gotoMixedParams : Params :=
  [("latitude", .num (mkRat 237 5)), ("longitude", .num (mkRat 17 2)),
   ("altitude", .num 500), ("north", .num 0)]

/-- A plain full GPS parameter set for `goto`. -/
def gotoGpsParams : Params :=
  [("latitude", .num (mkRat 237 5)), ("longitude", .num (mkRat 17 2)), ("altitude", .num 500)]

/-- A disconnected handler backend. -/
def disconnectedBackend : HandlerBackend :=
  { connected := false
    armedStream := fun _ => false
    positionStream := fun _ => ⟨0, 0, 0, 0⟩
    attitudeStream := fun _ => ⟨0, 0, 0⟩
    gpsGlobalOrigin := .error "UNAVAILABLE"
    actions := {} }

/-- A constant position stream sitting exactly at `(47, 8, 488 MSL)`. -/
noncomputable def constStream : ℕ → Position := fun _ => ⟨47, 8, 488, 10⟩

/-- Position updates whose first valid GPS fix is the second entry. -/
def originUpdates : List PositionUpdate :=
  [⟨0, 0, 488, 0⟩, ⟨47, 8, 488, 0⟩, ⟨1, 2, 3, 0⟩]

/-- Later updates arriving after the origin was latched. -/
def originLaterUpdates : List PositionUpdate := [⟨9, 9, 9, 9⟩]

/-- A freshly constructed backend (no origin, nothing latched). -/
def freshBackendState : BackendState :=
  { connected := true, px4_origin := none, origin_set := false, lastPosition := none }

/-! ## Theorems -/

/-- C1.  The claim says a failing command with mode `CONTINUE`/`SKIP` appends
its failure result and lets the sequence proceed, so that
`[wait, frobnicate (CONTINUE), wait]` yields three results.  The code instead
evaluates `CommandMode.ABORT_ON_FAIL` — a member that does not exist — in the
unknown-command, handler-failure and handler-exception branches, so this very
sequence raises `AttributeError` after appending the `unknown_command`
failure: `execute_sequence` returns no result list at all, and no third
command runs.  (Only the invalid-parameters branch actually continues.) -/
theorem unknown_continue_raises_attribute_error :
    (executeSequence sampleEnv false unknownContinueSeq).outcome
        = Except.error (PyError.attributeError "ABORT_ON_FAIL")
    ∧ (executeSequence sampleEnv false unknownContinueSeq).rtlCalls = 0
    ∧ (executeSequence sampleEnv false unknownContinueSeq).executing = false :=
  ⟨rfl, rfl, rfl⟩

/-- C8 counterexample.  An invocation with `executing = false` that returns no
partial results: the non-critical unknown-command failure raises
`AttributeError`, and the result list collected so far is lost (the claim
says every non-rejected invocation returns the collected partial results). -/
theorem execute_sequence_partial_results_lost :
    (executeSequence sampleEnv false [frobCmd]).outcome
      = Except.error (PyError.attributeError "ABORT_ON_FAIL") :=
  rfl

/-- C8 (amended).  `execute_sequence` raises `RuntimeError` when invoked while
`executing` is already true (leaving the flag set); in every other invocation
the flag is false again on every exit path — exceptional ones included — and
the loop's collected results are returned exactly on the exits where no
iteration raised. -/
theorem execute_sequence_guard_and_flag (env : ExecEnv) (cmds : List Command) :
    executeSequence env true cmds
        = { executing := true, rtlCalls := 0
            outcome := Except.error
              (PyError.runtimeError "Executor is already running a command sequence") }
    ∧ (executeSequence env false cmds).executing = false
    ∧ (executeSequence env false cmds).outcome = (execLoop env 0 cmds).2 :=
  ⟨rfl, rfl, rfl⟩

/-- C3.  The claim says the edge answers 400 on a drone-id mismatch and 503
when the backend is uninitialized or reconnection fails.  The endpoint does
raise `HTTPException(400)` / `HTTPException(503)` with those meanings — but
all three raises sit inside the `try` whose `except Exception` re-raises
`HTTPException(500, str(e))`, and FastAPI's `HTTPException` is an `Exception`
subclass.  Every one of these guard failures is therefore delivered as
status 500, with the intended status only quoted inside the detail string. -/
theorem commands_endpoint_guards_return_500 :
    executeCommands 1 apiReadyState sampleEnv false
        { commands := [rawWaitCommand], target_drone := some 2 }
      = HttpResponse.error 500 "400: Wrong drone. This is drone 1, got target 2"
    ∧ executeCommands 1 apiNoBackendState sampleEnv false
        { commands := [rawWaitCommand] }
      = HttpResponse.error 500 "503: Backend not initialized"
    ∧ executeCommands 1 apiReconnectFailsState sampleEnv false
        { commands := [rawWaitCommand] }
      = HttpResponse.error 500
          "503: Backend connection failed: 503: Backend not connected and reconnection failed" :=
  ⟨rfl, rfl, rfl⟩

/-- C10.  A falsy `target_drone` (0, like a missing one) never trips the
mismatch guard — `if target_drone and target_drone != AGENT_ID` skips falsy
values — and is silently replaced by the agent's own id, so the request is
handled exactly like one with no target: the sequence executes on this
agent.  The concrete conjunct shows a `target_drone = 0` request to agent 1
executing successfully. -/
theorem falsy_target_drone_not_rejected :
    (∀ (agentId : Int) (st : AgentState) (env : ExecEnv) (executing : Bool)
        (cmds : List RawCommand) (qm : Option String),
      executeCommands agentId st env executing
          { commands := cmds, queue_mode := qm, target_drone := some 0 }
        = executeCommands agentId st env executing
            { commands := cmds, queue_mode := qm, target_drone := none })
    ∧ executeCommands 1 apiReadyState sampleEnv false
        { commands := [rawWaitCommand], target_drone := some 0 }
      = HttpResponse.ok
          { success := true, results := [waitSuccessResult], drone_id := 1
            total_commands := 1, successful_commands := 1 } :=
  ⟨fun _ _ _ _ _ _ => rfl, rfl⟩

/-- A failure branch with the `ABORT_ON_FAIL` test never continues. -/
theorem failureModeStepFull_ne_cont (mode : CommandMode) (r r' : CommandResult) :
    failureModeStepFull mode r ≠ StepOut.cont r' := by
  cases mode <;> simp [failureModeStepFull]

/-- A failure branch breaks exactly for `CRITICAL`, with the given result. -/
theorem failureModeStepFull_halt {mode : CommandMode} {r r' : CommandResult}
    (h : failureModeStepFull mode r = StepOut.halt r') :
    r' = r ∧ mode = CommandMode.CRITICAL := by
  cases mode <;> simp_all [failureModeStepFull]

/-- The validation failure branch continues only for non-`CRITICAL` modes. -/
theorem failureModeStepValidation_cont {mode : CommandMode} {r r' : CommandResult}
    (h : failureModeStepValidation mode r = StepOut.cont r') :
    r' = r ∧ mode ≠ CommandMode.CRITICAL := by
  cases mode <;> simp_all [failureModeStepValidation]

/-- The validation failure branch breaks only for `CRITICAL`. -/
theorem failureModeStepValidation_halt {mode : CommandMode} {r r' : CommandResult}
    (h : failureModeStepValidation mode r = StepOut.halt r') :
    r' = r ∧ mode = CommandMode.CRITICAL := by
  cases mode <;> simp_all [failureModeStepValidation]

/-- A loop iteration that continues carries either a successful result or a
non-`CRITICAL` command: every failing `CRITICAL` iteration breaks or raises. -/
theorem commandStep_cont {env : ExecEnv} {i : ℕ} {cmd : Command} {r : CommandResult}
    (h : commandStep env i cmd = StepOut.cont r) :
    r.success = true ∨ cmd.mode ≠ CommandMode.CRITICAL := by
  unfold commandStep at h
  split at h
  · exact absurd h (failureModeStepFull_ne_cont _ _ _)
  · split at h
    · exact Or.inr (failureModeStepValidation_cont h).2
    · split at h
      · rename_i r0 heq
        split at h
        · rename_i hs
          cases h
          exact Or.inl hs
        · exact absurd h (failureModeStepFull_ne_cont _ _ _)
      · exact absurd h (failureModeStepFull_ne_cont _ _ _)

/-- A loop iteration that breaks does so on a failing `CRITICAL` command. -/
theorem commandStep_halt {env : ExecEnv} {i : ℕ} {cmd : Command} {r : CommandResult}
    (h : commandStep env i cmd = StepOut.halt r) :
    cmd.mode = CommandMode.CRITICAL ∧ r.success = false := by
  unfold commandStep at h
  split at h
  · obtain ⟨hr, hm⟩ := failureModeStepFull_halt h
    exact ⟨hm, by rw [hr]; rfl⟩
  · split at h
    · obtain ⟨hr, hm⟩ := failureModeStepValidation_halt h
      exact ⟨hm, by rw [hr]; rfl⟩
    · split at h
      · rename_i r0 heq
        split at h
        · cases h
        · rename_i hs
          obtain ⟨hr, hm⟩ := failureModeStepFull_halt h
          exact ⟨hm, by rw [hr]; simpa using hs⟩
      · obtain ⟨hr, hm⟩ := failureModeStepFull_halt h
        exact ⟨hm, by rw [hr]; rfl⟩

/-- Specification of the `execute_sequence` loop on a normal return: one
result per attempted command (so never more results than commands), and a
failing result of a `CRITICAL` command is the final result, with emergency
RTL having run. -/
theorem execLoop_ok (env : ExecEnv) :
    ∀ (cmds : List Command) (i n : ℕ) (res : List CommandResult),
      execLoop env i cmds = (n, Except.ok res) →
      res.length ≤ cmds.length
      ∧ (∀ j (hj : j < res.length) (hc : j < cmds.length),
          (res.get ⟨j, hj⟩).success = false →
          (cmds.get ⟨j, hc⟩).mode = CommandMode.CRITICAL →
          j + 1 = res.length ∧ 1 ≤ n)
  | [], i, n, res => by
    intro h
    simp only [execLoop, Prod.mk.injEq, Except.ok.injEq] at h
    obtain ⟨rfl, rfl⟩ := h
    exact ⟨Nat.le_refl _, fun j hj => absurd hj (Nat.not_lt_zero j)⟩
  | cmd :: rest, i, n, res => by
    intro h
    simp only [execLoop] at h
    cases hstep : commandStep env i cmd with
    | cont r =>
      rw [hstep] at h
      cases hrec : execLoop env (i + 1) rest with
      | mk n' o =>
        rw [hrec] at h
        cases o with
        | error e =>
          simp [Except.map] at h
        | ok res' =>
          simp only [Except.map, Prod.mk.injEq, Except.ok.injEq] at h
          obtain ⟨rfl, rfl⟩ := h
          have ih := execLoop_ok env rest (i + 1) _ res' hrec
          refine ⟨Nat.succ_le_succ ih.1, ?_⟩
          intro j hj hc hfail hcrit
          cases j with
          | zero =>
            rcases commandStep_cont hstep with hs | hm
            · simp only [List.get] at hfail
              rw [hfail] at hs
              cases hs
            · simp only [List.get] at hcrit
              exact absurd hcrit hm
          | succ k =>
            have hk := ih.2 k (Nat.lt_of_succ_lt_succ hj) (Nat.lt_of_succ_lt_succ hc)
              hfail hcrit
            exact ⟨by simpa using congrArg Nat.succ hk.1, hk.2⟩
    | halt r =>
      rw [hstep] at h
      simp only [Prod.mk.injEq, Except.ok.injEq] at h
      obtain ⟨rfl, rfl⟩ := h
      refine ⟨Nat.succ_le_succ (Nat.zero_le _), ?_⟩
      intro j hj hc hfail hcrit
      have hj0 : j = 0 := Nat.lt_one_iff.mp hj
      subst hj0
      exact ⟨rfl, Nat.le_refl 1⟩
    | raised r e =>
      rw [hstep] at h
      simp at h

/-- The loop's observable behaviour does not depend on what the emergency RTL
handler produces: `_emergency_rtl` discards its result and swallows its
exceptions. -/
theorem execLoop_rtl_irrel (env : ExecEnv) (f g : ℕ → HandlerOutcome) :
    ∀ (cmds : List Command) (i : ℕ),
      execLoop { env with rtl := f } i cmds = execLoop { env with rtl := g } i cmds
  | [], _ => rfl
  | cmd :: rest, i => by
    have hstep : commandStep { env with rtl := f } i cmd
        = commandStep { env with rtl := g } i cmd := rfl
    simp only [execLoop, hstep]
    cases commandStep { env with rtl := g } i cmd with
    | cont r => rw [execLoop_rtl_irrel env f g rest (i + 1)]
    | halt r => rfl
    | raised r e => rfl

/-- C2.  A failing `CRITICAL` command makes its failure result the last entry
of the returned list (the sequence stops), emergency RTL runs at least once,
and whatever the RTL handler does — succeed or raise — is swallowed and does
not change the call's observable output; consequently a returned result list
is never longer than the command list. -/
theorem critical_failure_terminates_sequence (env : ExecEnv) (cmds : List Command)
    (res : List CommandResult)
    (h : (executeSequence env false cmds).outcome = Except.ok res) :
    res.length ≤ cmds.length
    ∧ (∀ j (hj : j < res.length) (hc : j < cmds.length),
        (res.get ⟨j, hj⟩).success = false →
        (cmds.get ⟨j, hc⟩).mode = CommandMode.CRITICAL →
        j = res.length - 1 ∧ 1 ≤ (executeSequence env false cmds).rtlCalls)
    ∧ (∀ f g, executeSequence { env with rtl := f } false cmds
          = executeSequence { env with rtl := g } false cmds) := by
  have hout : (executeSequence env false cmds).outcome = (execLoop env 0 cmds).2 := rfl
  have hrtl : (executeSequence env false cmds).rtlCalls = (execLoop env 0 cmds).1 := rfl
  rw [hout] at h
  have hloop : execLoop env 0 cmds = ((execLoop env 0 cmds).1, Except.ok res) := by
    rw [← h]
  have spec := execLoop_ok env cmds 0 (execLoop env 0 cmds).1 res hloop
  refine ⟨spec.1, ?_, ?_⟩
  · intro j hj hc hfail hcrit
    obtain ⟨hlen, hn⟩ := spec.2 j hj hc hfail hcrit
    refine ⟨by omega, ?_⟩
    rw [hrtl]
    exact hn
  · intro f g
    have hl := execLoop_rtl_irrel env f g cmds 0
    show ExecOutput.mk false (execLoop { env with rtl := f } 0 cmds).1
        (execLoop { env with rtl := f } 0 cmds).2
      = ExecOutput.mk false (execLoop { env with rtl := g } 0 cmds).1
        (execLoop { env with rtl := g } 0 cmds).2
    rw [hl]

/-- C2 witness: `[frobnicate (CRITICAL), wait]` returns exactly the one
failure result, which is at the last index, with emergency RTL invoked. -/
theorem critical_failure_terminates_sequence_witness :
    (executeSequence sampleEnv false critSeq).outcome
        = Except.ok [unknownCommandResult "frobnicate"]
    ∧ (0 = [unknownCommandResult "frobnicate"].length - 1
        ∧ 1 ≤ (executeSequence sampleEnv false critSeq).rtlCalls) := by
  refine ⟨rfl, ?_⟩
  exact (critical_failure_terminates_sequence sampleEnv critSeq
    [unknownCommandResult "frobnicate"] rfl).2.1 0 (by decide) (by decide) rfl rfl

/-- Interleaved aborts never change what the loop computes: the loop body
does not consult the `executing` flag, so its results and outcome equal the
plain (abort-free) loop's. -/
theorem execLoopWithAborts_outcome (env : ExecEnv) (aborts : ℕ → Bool) :
    ∀ (cmds : List Command) (i : ℕ) (s : SharedExecState),
      (execLoopWithAborts env aborts i s cmds).2 = (execLoop env i cmds).2
  | [], _, _ => rfl
  | cmd :: rest, i, s => by
    simp only [execLoopWithAborts, execLoop]
    cases commandStep env i cmd with
    | cont r =>
      rw [execLoopWithAborts_outcome env aborts rest (i + 1)
        (if aborts i then (abortSequence s).2 else s)]
    | halt r => rfl
    | raised r e => rfl

/-- C9.  `abort_sequence` during a running sequence clears `executing` and
dispatches emergency RTL, but it does not stop the loop: the interleaved run
produces exactly the plain run's results (every remaining command is still
attempted, `CRITICAL` failures stopping both runs alike), and once the flag
is cleared a second `execute_sequence` call passes the entry guard and runs
its own loop while the first is still in flight. -/
theorem abort_does_not_halt_sequence (env : ExecEnv) (aborts : ℕ → Bool) (i : ℕ)
    (s : SharedExecState) (cmds cmds2 : List Command) (hs : s.executing = true) :
    (execLoopWithAborts env aborts i s cmds).2 = (execLoop env i cmds).2
    ∧ abortSequence s = (true, { executing := false, rtlCalls := s.rtlCalls + 1 })
    ∧ executeSequence env (abortSequence s).2.executing cmds2
        = { executing := false, rtlCalls := (execLoop env 0 cmds2).1
            outcome := (execLoop env 0 cmds2).2 } := by
  have habort : abortSequence s = (true, { executing := false, rtlCalls := s.rtlCalls + 1 }) := by
    unfold abortSequence
    rw [hs]
    simp
  refine ⟨execLoopWithAborts_outcome env aborts cmds i s, habort, ?_⟩
  rw [habort]
  rfl

/-- C9 witness: with the abort firing after the first command of
`[wait, wait]`, the run still returns both results, the abort reports success
after clearing the flag and counting an RTL dispatch, and the follow-up
`execute_sequence` call is admitted. -/
theorem abort_does_not_halt_sequence_witness :
    (⟨true, 0⟩ : SharedExecState).executing = true
    ∧ ((execLoopWithAborts sampleEnv (fun k => k == 0) 0 ⟨true, 0⟩ [waitCmd, waitCmd]).2
          = (execLoop sampleEnv 0 [waitCmd, waitCmd]).2
        ∧ abortSequence ⟨true, 0⟩ = (true, { executing := false, rtlCalls := 1 })
        ∧ executeSequence sampleEnv (abortSequence ⟨true, 0⟩).2.executing [waitCmd]
            = { executing := false, rtlCalls := (execLoop sampleEnv 0 [waitCmd]).1
                outcome := (execLoop sampleEnv 0 [waitCmd]).2 }) :=
  ⟨rfl, abort_does_not_halt_sequence sampleEnv (fun k => k == 0) 0 ⟨true, 0⟩
    [waitCmd, waitCmd] [waitCmd] rfl⟩

/-- Once `_origin_set` is true, further position updates change neither the
latched origin nor the flag (the latch condition is guarded on
`not self._origin_set`). -/
theorem collectPosition_origin_stable :
    ∀ (updates : List PositionUpdate) (s : BackendState), s.origin_set = true →
      (collectPosition s updates).px4_origin = s.px4_origin
      ∧ (collectPosition s updates).origin_set = true
  | [], s, hs => ⟨rfl, hs⟩
  | p :: rest, s, hs => by
    have hstep : collectPositionUpdate s p = { s with lastPosition := some p } := by
      unfold collectPositionUpdate
      rw [if_neg]
      simp [hs]
    have ih := collectPosition_origin_stable rest { s with lastPosition := some p } hs
    simpa [collectPosition, hstep] using ih

/-- From a fresh backend, consuming a stream prefix latches exactly the first
update with both coordinates non-zero (as latitude, longitude, absolute
altitude), and the flag records whether such an update occurred. -/
theorem collectPosition_origin_fresh :
    ∀ (updates : List PositionUpdate) (s : BackendState),
      s.origin_set = false → s.px4_origin = none →
      (collectPosition s updates).px4_origin = firstValidOrigin updates
      ∧ (collectPosition s updates).origin_set = (firstValidOrigin updates).isSome
  | [], s, hs, ho => by
    exact ⟨by simpa [collectPosition, firstValidOrigin] using ho,
      by simpa [collectPosition, firstValidOrigin] using hs⟩
  | p :: rest, s, hs, ho => by
    by_cases hvalid : p.latitude_deg ≠ 0 ∧ p.longitude_deg ≠ 0
    · have hstep : collectPositionUpdate s p =
          { connected := s.connected
            px4_origin := some ⟨p.latitude_deg, p.longitude_deg, p.absolute_altitude_m⟩
            origin_set := true
            lastPosition := some p } := by
        unfold collectPositionUpdate
        rw [if_pos ⟨hs, hvalid.1, hvalid.2⟩]
      have hstable := collectPosition_origin_stable rest
        { connected := s.connected
          px4_origin := some ⟨p.latitude_deg, p.longitude_deg, p.absolute_altitude_m⟩
          origin_set := true
          lastPosition := some p } rfl
      have hfirst : firstValidOrigin (p :: rest)
          = some ⟨p.latitude_deg, p.longitude_deg, p.absolute_altitude_m⟩ := by
        simp [firstValidOrigin, List.find?, hvalid.1, hvalid.2]
      refine ⟨?_, ?_⟩
      · rw [collectPosition, List.foldl_cons, hstep, hfirst]
        exact hstable.1
      · rw [collectPosition, List.foldl_cons, hstep, hfirst]
        simpa using hstable.2
    · have hstep : collectPositionUpdate s p = { s with lastPosition := some p } := by
        unfold collectPositionUpdate
        rw [if_neg]
        intro hcontra
        exact hvalid ⟨hcontra.2.1, hcontra.2.2⟩
      have ih := collectPosition_origin_fresh rest { s with lastPosition := some p } hs ho
      have hfirst : firstValidOrigin (p :: rest) = firstValidOrigin rest := by
        simp only [firstValidOrigin, List.find?]
        rw [decide_eq_false hvalid]
      rw [collectPosition, List.foldl_cons, hstep, hfirst]
      exact ih

/-- C7.  The PX4 origin is latched from the first position update with
non-zero latitude and longitude (taking latitude, longitude and absolute MSL
altitude), later updates never overwrite it, `get_px4_origin()` keeps
returning the latched value under any further updates, and `disconnect()`
clears it. -/
theorem px4_origin_latched_once (s : BackendState) (updates more : List PositionUpdate) :
    (s.origin_set = false → s.px4_origin = none →
      get_px4_origin (collectPosition s updates) = firstValidOrigin updates)
    ∧ (s.origin_set = true →
      get_px4_origin (collectPosition s updates) = get_px4_origin s)
    ∧ (s.origin_set = false → s.px4_origin = none →
        (firstValidOrigin updates).isSome = true →
      get_px4_origin (collectPosition (collectPosition s updates) more)
        = firstValidOrigin updates)
    ∧ get_px4_origin (disconnect s) = none := by
  refine ⟨?_, ?_, ?_, rfl⟩
  · intro hs ho
    exact (collectPosition_origin_fresh updates s hs ho).1
  · intro hs
    exact (collectPosition_origin_stable updates s hs).1
  · intro hs ho hlatch
    obtain ⟨h1, h2⟩ := collectPosition_origin_fresh updates s hs ho
    rw [hlatch] at h2
    have := collectPosition_origin_stable more (collectPosition s updates) h2
    calc get_px4_origin (collectPosition (collectPosition s updates) more)
        = (collectPosition (collectPosition s updates) more).px4_origin := rfl
      _ = (collectPosition s updates).px4_origin := this.1
      _ = firstValidOrigin updates := h1

/-- C7 witness: with `[(0,0), (47,8,488), (1,2,3)]` the origin latches to
`(47, 8, 488)` from the second update, survives a later update, and is
cleared by `disconnect`. -/
theorem px4_origin_latched_once_witness :
    freshBackendState.origin_set = false
    ∧ get_px4_origin (collectPosition freshBackendState originUpdates)
        = some ⟨47, 8, 488⟩
    ∧ get_px4_origin
        (collectPosition (collectPosition freshBackendState originUpdates) originLaterUpdates)
        = some ⟨47, 8, 488⟩
    ∧ get_px4_origin (disconnect freshBackendState) = none := by
  have h := px4_origin_latched_once freshBackendState originUpdates originLaterUpdates
  have hfirst : firstValidOrigin originUpdates = some ⟨47, 8, 488⟩ := by decide
  refine ⟨rfl, ?_, ?_, h.2.2.2⟩
  · rw [h.1 rfl rfl, hfirst]
  · rw [h.2.2.1 rfl rfl (by rw [hfirst]; rfl), hfirst]

/-- C5 (amended).  A `goto` command constructs successfully only when exactly
one of the two *complete* coordinate triples is present: both complete
triples and neither complete triple raise at construction.  A partial triple
does not count, which is what the counterexample below exhibits. -/
theorem goto_construction_requires_exactly_one_triple (pmAvailable : Bool) (params : Params)
    (h : gotoValidateParams pmAvailable params = Except.ok ()) :
    hasGpsTriple params ≠ hasNedTriple params := by
  intro heq
  cases hgps : hasGpsTriple params with
  | false =>
    rw [hgps] at heq
    simp [gotoValidateParams, hgps, ← heq, throw, throwThe, MonadExceptOf.throw,
      Except.bind, bind, Except.instMonad, pure, Except.pure] at h
  | true =>
    rw [hgps] at heq
    simp [gotoValidateParams, hgps, ← heq, throw, throwThe, MonadExceptOf.throw,
      Except.bind, bind, Except.instMonad, pure, Except.pure] at h

/-- C5 counterexample.  `goto{latitude: 47.4, longitude: 8.5, altitude: 500,
north: 0}` constructs without error: the stray `north` key is not a complete
NED triple, so the mutual-exclusion check does not fire, contradicting the
claim that this input fails at construction. -/
theorem goto_gps_with_stray_ned_key_constructs :
    gotoValidateParams true gotoMixedParams = Except.ok () := by
  rfl

/-- C5 witness: a plain GPS-only parameter set constructs successfully and
has exactly one complete triple. -/
theorem goto_construction_requires_exactly_one_triple_witness :
    gotoValidateParams true gotoGpsParams = Except.ok ()
    ∧ hasGpsTriple gotoGpsParams ≠ hasNedTriple gotoGpsParams :=
  ⟨by rfl, goto_construction_requires_exactly_one_triple true gotoGpsParams (by rfl)⟩

/-- C4 (amended).  Every backend-interacting handler — takeoff, land, rtl,
goto and yaw — checks `backend.connected` first and, when it is false,
returns `success=false` with `error="backend_disconnected"` and dispatches no
autopilot action.  The `wait` handler is the exception: it never consults the
backend and succeeds regardless of connectivity (see the counterexample). -/
theorem backend_handlers_check_connected
    (ned2geodetic : ℝ → ℝ → ℝ → ℝ → ℝ → ℝ → ℝ × ℝ × ℝ) (pmAvailable : Bool)
    (b : HandlerBackend) (params : Params) (elapsed : ℚ)
    (h : b.connected = false) :
    takeoffExecute b params elapsed = (disconnectedResult, [])
    ∧ landExecute b params elapsed = (disconnectedResult, [])
    ∧ rtlExecute b params elapsed = (disconnectedResult, [])
    ∧ gotoExecute ned2geodetic pmAvailable b params elapsed = (disconnectedResult, [])
    ∧ yawExecute b params elapsed = (disconnectedResult, []) := by
  refine ⟨?_, ?_, ?_, ?_, ?_⟩
  · unfold takeoffExecute
    rw [if_pos h]
  · unfold landExecute
    rw [if_pos h]
  · unfold rtlExecute
    rw [if_pos h]
  · unfold gotoExecute
    rw [if_pos h]
  · unfold yawExecute
    rw [if_pos h]

/-- C4 counterexample.  `wait` on a disconnected backend does not return the
`backend_disconnected` failure the claim requires of every handler: it
succeeds with no error (its `execute` never reads `backend.connected`). -/
theorem wait_succeeds_on_disconnected_backend :
    (waitExecute disconnectedBackend [("duration", Value.num (mkRat 1 5))] (mkRat 1 5)).1.success
        = true
    ∧ (waitExecute disconnectedBackend [("duration", Value.num (mkRat 1 5))] (mkRat 1 5)).1.error
        = none
    ∧ (waitExecute disconnectedBackend [("duration", Value.num (mkRat 1 5))] (mkRat 1 5)).2
        = [] :=
  ⟨rfl, rfl, rfl⟩

/-- C4 witness: on a concrete disconnected backend all five backend-touching
handlers return the `backend_disconnected` failure with an empty action
trace. -/
theorem backend_handlers_check_connected_witness :
    disconnectedBackend.connected = false
    ∧ (takeoffExecute disconnectedBackend [] 0 = (disconnectedResult, [])
        ∧ landExecute disconnectedBackend [] 0 = (disconnectedResult, [])
        ∧ rtlExecute disconnectedBackend [] 0 = (disconnectedResult, [])
        ∧ gotoExecute (fun _ _ _ olat olon oalt => (olat, olon, oalt)) true
            disconnectedBackend [] 0 = (disconnectedResult, [])
        ∧ yawExecute disconnectedBackend [] 0 = (disconnectedResult, [])) :=
  ⟨rfl, backend_handlers_check_connected (fun _ _ _ olat olon oalt => (olat, olon, oalt)) true
    disconnectedBackend [] 0 rfl⟩

/-- The loop guard `elapsed < timeout` with `elapsed = k/2` and
`timeout = 60` admits exactly the polls `k < 120`. -/
theorem gotoGuard_iff (k : ℕ) : ((k : ℚ) * (1 / 2) < 60) ↔ k < 120 := by
  rw [show (60 : ℚ) = 120 * (1 / 2) by norm_num]
  rw [mul_lt_mul_right (by norm_num : (0 : ℚ) < 1 / 2)]
  exact_mod_cast Nat.cast_lt (α := ℚ)

/-- An `arrived d` outcome of the monitor loop means some admitted poll
measured exactly the reported distance `d`, and `d` was within the radius. -/
theorem gotoMonitorLoop_arrived (stream : ℕ → Position) (tlat tlon talt radius : ℝ) :
    ∀ (fuel k : ℕ) (d : ℝ),
      gotoMonitorLoop stream tlat tlon talt radius fuel k = GotoLoopResult.arrived d →
      d ≤ radius ∧ ∃ j, k ≤ j ∧ j < 120 ∧ gotoDistanceAt stream tlat tlon talt j = d
  | 0, k, d => by
    intro h
    simp [gotoMonitorLoop] at h
  | fuel + 1, k, d => by
    intro h
    rw [gotoMonitorLoop] at h
    by_cases hg : (k : ℚ) * (1 / 2) < 60
    · rw [if_pos hg] at h
      by_cases hd : gotoDistanceAt stream tlat tlon talt k ≤ radius
      · rw [if_pos hd] at h
        cases h
        exact ⟨hd, k, Nat.le_refl k, (gotoGuard_iff k).mp hg, rfl⟩
      · rw [if_neg hd] at h
        obtain ⟨h1, j, hkj, hj, hdist⟩ :=
          gotoMonitorLoop_arrived stream tlat tlon talt radius fuel (k + 1) d h
        exact ⟨h1, j, Nat.le_trans (Nat.le_succ k) hkj, hj, hdist⟩
    · rw [if_neg hg] at h
      cases h

/-- With enough fuel, the loop times out exactly when no admitted poll comes
within the acceptance radius. -/
theorem gotoMonitorLoop_timedOut (stream : ℕ → Position) (tlat tlon talt radius : ℝ) :
    ∀ (fuel k : ℕ), 120 ≤ k + fuel →
      (gotoMonitorLoop stream tlat tlon talt radius fuel k = GotoLoopResult.timedOut
        ↔ ∀ j, k ≤ j → j < 120 → ¬ gotoDistanceAt stream tlat tlon talt j ≤ radius)
  | 0, k => by
    intro hk
    simp only [gotoMonitorLoop]
    constructor
    · intro _ j hkj hj
      exact absurd hj (by omega)
    · intro _
      trivial
  | fuel + 1, k => by
    intro hk
    rw [gotoMonitorLoop]
    by_cases hg : (k : ℚ) * (1 / 2) < 60
    · rw [if_pos hg]
      have hk120 := (gotoGuard_iff k).mp hg
      by_cases hd : gotoDistanceAt stream tlat tlon talt k ≤ radius
      · rw [if_pos hd]
        constructor
        · intro h
          cases h
        · intro hall
          exact absurd hd (hall k (Nat.le_refl k) hk120)
      · rw [if_neg hd]
        rw [gotoMonitorLoop_timedOut stream tlat tlon talt radius fuel (k + 1) (by omega)]
        constructor
        · intro hall j hkj hj
          rcases Nat.eq_or_lt_of_le hkj with rfl | hlt
          · exact hd
          · exact hall j hlt hj
        · intro hall j hkj hj
          exact hall j (by omega) hj
    · rw [if_neg hg]
      have hk120 : 120 ≤ k := by
        by_contra hcon
        exact hg ((gotoGuard_iff k).mpr (by omega))
      constructor
      · intro _ j hkj hj
        exact absurd hj (by omega)
      · intro _
        rfl

/-- C6.  The arrival monitor — polling the live position each half second
under the 60 s deadline and measuring the Haversine-plus-altitude 3-D
distance `calculate_distance` — returns success exactly when one of the 120
admitted polls is within `acceptance_radius`; the reported final distance of
a success is then at most the radius, and otherwise the loop ends in the
`error="timeout"` failure. -/
theorem goto_arrival_loop_spec (stream : ℕ → Position) (tlat tlon talt radius : ℝ) :
    (gotoMonitorArrival stream tlat tlon talt radius = GotoLoopResult.timedOut
      ↔ ∀ k, k < 120 → ¬ gotoDistanceAt stream tlat tlon talt k ≤ radius)
    ∧ (∀ d, gotoMonitorArrival stream tlat tlon talt radius = GotoLoopResult.arrived d →
        d ≤ radius ∧ ∃ k, k < 120 ∧ gotoDistanceAt stream tlat tlon talt k = d) := by
  constructor
  · have hiff := gotoMonitorLoop_timedOut stream tlat tlon talt radius 121 0 (by omega)
    unfold gotoMonitorArrival
    rw [hiff]
    constructor
    · intro hall k hk
      exact hall k (Nat.zero_le k) hk
    · intro hall j _ hj
      exact hall j hj
  · intro d h
    obtain ⟨hd, j, _, hj, hdist⟩ :=
      gotoMonitorLoop_arrived stream tlat tlon talt radius 121 0 d h
    exact ⟨hd, j, hj, hdist⟩

/-- The 3-D distance from a point to itself is zero: both angle differences
vanish, so the Haversine term is `arcsin (sqrt 0) = 0`, and the altitude
difference is zero. -/
theorem calculate_distance_self (lat lon alt : ℝ) :
    calculate_distance lat lon alt lat lon alt = 0 := by
  unfold calculate_distance
  simp [sub_self, Real.sqrt_zero, Real.arcsin_zero]

/-- On a stream parked exactly at the target, the very first poll measures
distance zero and the monitor succeeds immediately. -/
theorem gotoMonitorArrival_const_eval :
    gotoMonitorArrival constStream 47 8 488 2 = GotoLoopResult.arrived 0 := by
  have hd : gotoDistanceAt constStream 47 8 488 0 = 0 := by
    unfold gotoDistanceAt constStream
    exact calculate_distance_self 47 8 488
  show gotoMonitorLoop constStream 47 8 488 2 (120 + 1) 0 = GotoLoopResult.arrived 0
  rw [gotoMonitorLoop]
  rw [if_pos (show ((0 : ℕ) : ℚ) * (1 / 2) < 60 by norm_num)]
  rw [hd]
  rw [if_pos (by norm_num : (0 : ℝ) ≤ 2)]

/-- C6 witness: the parked stream arrives with reported distance 0, which the
main theorem certifies to be within the radius and measured at an admitted
poll. -/
theorem goto_arrival_loop_spec_witness :
    gotoMonitorArrival constStream 47 8 488 2 = GotoLoopResult.arrived 0
    ∧ ((0 : ℝ) ≤ 2 ∧ ∃ k, k < 120 ∧ gotoDistanceAt constStream 47 8 488 k = 0) :=
  ⟨gotoMonitorArrival_const_eval,
    (goto_arrival_loop_spec constStream 47 8 488 2).2 0 gotoMonitorArrival_const_eval⟩
